import Mathlib

/-!
Load-Balancing demo server (`app.js`).

A shallow embedding of the nineteen lines of `app.js` together with the parts
of the JavaScript runtime they call:

* `process.env.PORT || 3000`  (truthiness and the `||` operator),
* `Math.random().toString(36).substr(2, 6)`  (radix conversion of a binary64
  value as performed by the engine Node.js runs on, and `String.prototype.substr`),
* `app.get`, `res.send`, `app.listen` and `console.log`.

`app.js` does not fix the release of the HTTP layer it runs on. What differs
between releases, or rests on code outside `app.js`, is a parameter of the
model (`HttpLayer`): the path test of the router, the freshness test behind
`res.send`, and whether `app.listen` hands a bind error to its callback.
`HttpLayer.Conforms` states what holds in every release.

Binary64 values are represented exactly: a natural number `n` stands for the
real number `n * 2^(-1074)`, so every finite non-negative double is a natural
number with at most 53 significant bits.

The definitions come first, then the lemmas about the arithmetic, then one
theorem per claim `C1` … `C10`.
-/

set_option exponentiation.threshold 5000

namespace LoadBalancing

/-! ## Binary64 arithmetic on exact values -/

/-- The double `1.0` in units of `2^(-1074)`. -/
def one : Nat := 1 <<< 1074

/-- One step of the binary search for the position of the leading bit. -/
def log2Step (acc : Nat × Nat) (b : Nat) : Nat × Nat :=
  if 1 <<< b ≤ acc.1 then (acc.1 >>> b, acc.2 + b) else acc

/-- Position of the leading bit of `x` (`0` for `x = 0`), for `x < 2^4096`;
every finite double is below `2^2098` in the units used here. -/
def floorLog2 (x : Nat) : Nat :=
  ([2048, 1024, 512, 256, 128, 64, 32, 16, 8, 4, 2, 1].foldl log2Step (x, 0)).2

/-- Number of low-order bits of `x` that do not fit in a 53-bit significand. -/
def excessBits (x : Nat) : Nat := floorLog2 x - 52

/-- Predicate: the exact value `x` is a binary64 value: it has at most 53
significant bits. -/
def IsDouble (x : Nat) : Prop := 1 <<< excessBits x ∣ x

instance (x : Nat) : Decidable (IsDouble x) := by
  unfold IsDouble; exact inferInstance

/-- Round an exact value to binary64, to nearest, ties to even: the result of
every floating-point multiplication and addition below. -/
def roundDouble (x : Nat) : Nat :=
  let k := excessBits x
  let q := x / (1 <<< k)
  let rem := x % (1 <<< k)
  if (1 <<< k) < 2 * rem ∨ (2 * rem = (1 <<< k) ∧ q % 2 = 1) then (q + 1) * (1 <<< k)
  else q * (1 <<< k)

/-- The gap `Double(value).NextDouble() - value` to the next larger double. -/
def nextDoubleGap (value : Nat) : Nat := 1 <<< excessBits value

/-- The product `0.5 * x`, which is inexact only when it falls below the
smallest subnormal step; the tie is then broken towards the even neighbour. -/
def mulHalf (x : Nat) : Nat :=
  x / 2 + (if x % 2 = 1 ∧ (x / 2) % 2 = 1 then 1 else 0)

/-! ## `Number.prototype.toString(radix)` on values in `[0, 1)` -/

/-- Digit table `chars` of `DoubleToRadixCString`. -/
def chars : List Char := "0123456789abcdefghijklmnopqrstuvwxyz".data

/-- Indexing `chars[digit]`; index 36 is the NUL that terminates the C literal. -/
def charAt (digit : Nat) : Char := chars.getD digit (Char.ofNat 0)

/-- Digit reconstruction `c > '9' ? (c - 'a' + 10) : (c - '0')`. -/
def digitOf (c : Char) : Nat :=
  if '9' < c then c.toNat - 'a'.toNat + 10 else c.toNat - '0'.toNat

/-- The back-trace loop run on carry-over. The argument is the fractional part
of the buffer, last written digit first, without the radix point; the Boolean
result tells whether the carry reached the integer part. -/
def backTrace (radix : Nat) : List Char → List Char × Bool
  | [] => ([], true)
  | c :: rest =>
    if digitOf c + 1 < radix then (charAt (digitOf c + 1) :: rest, false)
    else backTrace radix rest

/-- The `do … while (fraction >= delta)` loop that emits fractional digits.
`none` means the iteration budget was exhausted. -/
def fractionLoop (radix : Nat) : Nat → Nat → Nat → List Char → Option (List Char × Bool)
  | 0, _, _, _ => none
  | fuel + 1, fraction, delta, buffer =>
    let shifted := roundDouble (fraction * radix)
    let delta1 := roundDouble (delta * radix)
    let digit := shifted / one
    let buffer1 := charAt digit :: buffer
    let fraction1 := shifted - digit * one
    if (one < 2 * fraction1 ∨ (2 * fraction1 = one ∧ digit % 2 = 1))
        ∧ one < roundDouble (fraction1 + delta1) then
      some (backTrace radix buffer1)
    else if delta1 ≤ fraction1 then fractionLoop radix fuel fraction1 delta1 buffer1
    else some (buffer1, false)

/-- The integer-digit loop `do { … } while (integer > 0)`, most significant
digit first. -/
def integerDigits (radix : Nat) : Nat → Nat → List Char → List Char
  | 0, _, acc => acc
  | fuel + 1, integer, acc =>
    let acc1 := charAt (integer % radix) :: acc
    if 0 < integer / radix then integerDigits radix fuel (integer / radix) acc1 else acc1

/-- Iteration budget for the fractional loop: `delta` at least doubles in every
round and the loop stops once it exceeds `fraction < 1`. -/
def fractionFuel : Nat := 1075

/-- The engine routine `DoubleToRadixCString(value, radix)` for `0 < value < 1`:
the integer part is `0`, or `1` after a carry out of the fractional digits. -/
def DoubleToRadixCString (value radix : Nat) : String :=
  let integer := value / one
  let fraction := value - integer * one
  let delta := max 1 (mulHalf (nextDoubleGap value))
  let result : List Char × Bool :=
    if delta ≤ fraction then (fractionLoop radix fractionFuel fraction delta []).getD ([], false)
    else ([], false)
  let integer1 := if result.2 then integer + 1 else integer
  let intPart := integerDigits radix (integer1 + 1) integer1 []
  if delta ≤ fraction ∧ result.2 = false then String.mk (intPart ++ '.' :: result.1.reverse)
  else String.mk intPart

/-- A value `Math.random()` can return: a double `r` with `0 ≤ r < 1`. -/
structure UnitDouble where
  /-- The value, in units of `2^(-1074)`. -/
  val : Nat
  isDouble : IsDouble val
  lt_one : val < one

/-- `Number.prototype.toString(radix)`: zero takes the one-character fast path,
everything else goes through `DoubleToRadixCString`. -/
def numberToString (r : UnitDouble) (radix : Nat) : String :=
  if r.val = 0 then String.mk [charAt 0] else DoubleToRadixCString r.val radix

/-- `String.prototype.substr(start, length)` for non-negative integer arguments. -/
def substr (s : String) (start length : Nat) : String :=
  let size := s.length
  let intStart := min start size
  let intLength := min length size
  let intEnd := min (intStart + intLength) size
  String.mk ((s.data.drop intStart).take (intEnd - intStart))

/-- The double `0.0`. -/
def UnitDouble.zero : UnitDouble := ⟨0, by decide, by decide⟩

/-- The double `0.5`. -/
def UnitDouble.half : UnitDouble := ⟨1 <<< 1073, by decide, by decide⟩

/-- The double nearest to `0.1`, `7205759403792794 * 2^(-56)`. -/
def UnitDouble.tenth : UnitDouble := ⟨7205759403792794 <<< 1018, by decide, by decide⟩

/-- The largest double below `1.0`, `1 - 2^(-53)`. -/
def UnitDouble.pred_one : UnitDouble := ⟨9007199254740991 <<< 1021, by decide, by decide⟩

/-- The smallest positive double, `2^(-1074)`. -/
def UnitDouble.tiny : UnitDouble := ⟨1, by decide, by decide⟩

/-! ## JavaScript values and the environment -/

/-- The JavaScript values `app.js` manipulates. -/
inductive JSValue
  | undefined
  | string (s : String)
  | number (n : Nat)
  deriving DecidableEq, Repr

/-- The abstract operation `ToBoolean`. -/
def JSValue.toBoolean : JSValue → Bool
  | .undefined => false
  | .string s => decide (s ≠ "")
  | .number n => decide (n ≠ 0)

/-- The operator `a || b`: the left operand when it is truthy, else the right one. -/
def JSValue.or (a b : JSValue) : JSValue := if a.toBoolean then a else b

/-- The conversion `ToString` applied to a template-literal substitution
(decimal digits for the non-negative integers that occur here). -/
def JSValue.toStr : JSValue → String
  | .undefined => "undefined"
  | .string s => s
  | .number n => Nat.repr n

/-- The table `process.env`: a variable is absent or holds a string. -/
abbrev ProcessEnv := String → Option String

/-- Property access `process.env[name]`. -/
def ProcessEnv.get (env : ProcessEnv) (name : String) : JSValue :=
  match env name with
  | none => .undefined
  | some s => .string s

/-- Line 5: `const PORT = process.env.PORT || 3000;`. -/
def PORT (env : ProcessEnv) : JSValue := (env.get "PORT").or (.number 3000)

/-- Lines 8-10, the random part: `Math.random().toString(36).substr(2, 6)`,
where `r` is the value `Math.random()` returned. -/
def randomToken (r : UnitDouble) : String := substr (numberToString r 36) 2 6

/-- Lines 8-10: the template literal
`${os.hostname()}-${Math.random().toString(36).substr(2, 6)}`. -/
def instanceId (hostname : String) (r : UnitDouble) : String :=
  hostname ++ "-" ++ randomToken r

/-! ## The HTTP layer -/

/-- Request methods delivered to request handlers. -/
inductive Method
  | GET | HEAD | POST | PUT | DELETE | PATCH | OPTIONS | TRACE
  deriving DecidableEq, Repr

/-- An incoming request; `path` is the pathname of the request target, and the
header names are in lower case, as the runtime delivers them. -/
structure Request where
  method : Method
  path : String
  headers : List (String × String) := []
  body : String := ""
  deriving DecidableEq, Repr

/-- Value of a request header. -/
def Request.header (req : Request) (name : String) : Option String :=
  req.headers.lookup name

/-- The reply to one request. -/
structure Response where
  /-- Status code of the reply, 200 unless something sets it. -/
  statusCode : Nat := 200
  /-- Argument of the call of `res.send`, if it was called. -/
  sent : Option String := none
  /-- Body of the reply on the wire, once the reply has ended. -/
  body : Option String := none
  deriving DecidableEq, Repr

/-- Observable state of the process. -/
structure Process where
  /-- The constant `instanceId`. -/
  instanceId : String
  /-- The constant `PORT`. -/
  port : JSValue
  /-- Number of calls of `Math.random()` so far. -/
  randomCalls : Nat
  /-- Arguments of the calls of `app.listen` so far. -/
  listenCalls : List JSValue
  /-- Whether the server accepts connections. -/
  listening : Bool
  /-- Lines written to standard output. -/
  stdout : List String
  /-- Lines written to standard error. -/
  stderr : List String
  /-- Exit status once the process has terminated. -/
  exitCode : Option Nat
  deriving DecidableEq, Repr

/-- The parts of the HTTP layer (`express`, whose release `app.js` does not
fix) that are not code of `app.js` and differ between releases or rest on
code outside it. They are parameters of the model. -/
structure HttpLayer where
  /-- Path test of the router: `matchesPath routePath pathname`. -/
  matchesPath : String → String → Bool
  /-- Freshness test of `res.send`: whether the validators of the request
  (`If-None-Match`, `If-Modified-Since`) show that the client holds the payload. -/
  fresh : Request → String → Bool
  /-- Whether `app.listen` registers its callback for the server's `error`
  event as well (releases since 5), so that a failed bind calls it. -/
  callbackOnError : Bool

/-- What holds of the layer in every release: the route path `/` matches the
pathname `/`; a request without `If-None-Match` and `If-Modified-Since` is never
fresh; a request with `If-None-Match: *`, without `If-Modified-Since` and
`Cache-Control`, is fresh. -/
structure HttpLayer.Conforms (layer : HttpLayer) : Prop where
  root_matches : layer.matchesPath "/" "/" = true
  unconditional_stale : ∀ (req : Request) (payload : String),
    req.header "if-none-match" = none → req.header "if-modified-since" = none →
    layer.fresh req payload = false
  none_match_any_fresh : ∀ (req : Request) (payload : String),
    req.header "if-none-match" = some "*" → req.header "if-modified-since" = none →
    req.header "cache-control" = none → layer.fresh req payload = true

/-- The property `req.fresh` as `res.send` reads it: only GET and HEAD, only
with a status 2xx or 304, and then the freshness test of the layer. -/
def requestFresh (layer : HttpLayer) (req : Request) (res : Response) (payload : String) : Bool :=
  (decide (req.method = .GET) || decide (req.method = .HEAD)) &&
  ((decide (200 ≤ res.statusCode) && decide (res.statusCode < 300)) ||
    decide (res.statusCode = 304)) &&
  layer.fresh req payload

/-- The call `res.send(payload)` with a string: a fresh request is answered
304; the replies 204, 205 and 304 carry no content; the reply to HEAD has no
body. -/
def Response.send (layer : HttpLayer) (req : Request) (res : Response) (payload : String) :
    Response :=
  let status := if requestFresh layer req res payload then 304 else res.statusCode
  let chunk := if status = 204 ∨ status = 205 ∨ status = 304 then "" else payload
  { statusCode := status
    sent := some payload
    body := some (if req.method = .HEAD then "" else chunk) }

/-- A route handler `(req, res) => …`; it runs in the process and may change
its state. -/
abbrev Handler := Request → Response → Process → Response × Process

/-- A route created by `app.METHOD(path, handler)`. -/
structure Route where
  method : Method
  path : String
  handler : Handler

/-- The method test of a route (`_handles_method`): the function given to
`app.get()` is also called for the HEAD method when `app.head()` was not called
for the path before. -/
def Route.handlesMethod (route : Route) (method : Method) : Bool :=
  let name := if method = .HEAD ∧ route.method ≠ .HEAD then Method.GET else method
  decide (name = route.method)

/-- Methods a route advertises in the automatic OPTIONS reply (`_options`). -/
def Route.options (route : Route) : List Method :=
  if route.method = .GET then [.GET, .HEAD] else [route.method]

/-- What the HTTP layer does with a request. -/
inductive Outcome
  /-- A route handler ran and this is the reply. -/
  | handled (res : Response)
  /-- The automatic reply to OPTIONS listing the allowed methods. -/
  | allow (methods : List Method)
  /-- The default not-found reply. -/
  | notFound
  deriving DecidableEq, Repr

/-- Status code of an outcome. -/
def Outcome.statusCode : Outcome → Nat
  | .handled res => res.statusCode
  | .allow _ => 200
  | .notFound => 404

/-- The router walks the route stack in registration order: the first route
that matches path and method handles the request; a route that matches the
path only contributes to the OPTIONS reply; with the stack exhausted the reply
is the automatic OPTIONS reply or the default not-found reply. -/
def dispatchFrom (layer : HttpLayer) (req : Request) :
    List Route → List Method → Process → Outcome × Process
  | [], options, p =>
    (if req.method = .OPTIONS ∧ options ≠ [] then .allow options else .notFound, p)
  | route :: rest, options, p =>
    if layer.matchesPath route.path req.path then
      if route.handlesMethod req.method then
        ((Outcome.handled (route.handler req {} p).1), (route.handler req {} p).2)
      else if req.method = .OPTIONS then
        dispatchFrom layer req rest (options ++ route.options) p
      else dispatchFrom layer req rest options p
    else dispatchFrom layer req rest options p

/-- Routing of one request through the registered routes. -/
def dispatch (layer : HttpLayer) (routes : List Route) (req : Request) (p : Process) :
    Outcome × Process :=
  dispatchFrom layer req routes [] p

/-! ## The program -/

/-- Lines 12-14: the handler `(req, res) => { res.send(…) }`. It reads the
constant `instanceId` and changes nothing in the process. -/
def rootHandler (layer : HttpLayer) : Handler :=
  fun req res p => (res.send layer req ("Hello from instance: " ++ p.instanceId), p)

/-- The routes registered by `app.js`: the single call `app.get('/', …)`. -/
def routes (layer : HttpLayer) : List Route :=
  [{ method := .GET, path := "/", handler := rootHandler layer }]

/-- Result of the attempt to bind the listening socket. -/
inductive BindOutcome
  | bound
  | failed (error : String)
  deriving DecidableEq, Repr

/-- Everything the program reads from outside at startup. -/
structure World where
  env : ProcessEnv
  hostname : String
  /-- The values the random generator yields, in the order of the calls. -/
  random : Nat → UnitDouble
  /-- Whether the operating system lets the requested port be bound. -/
  bind : JSValue → BindOutcome

/-- The call `Math.random()` after `calls` earlier calls: the value and the
new number of calls. -/
def mathRandom (w : World) (calls : Nat) : UnitDouble × Nat := (w.random calls, calls + 1)

/-- Lines 8-10 run after `calls` earlier calls of `Math.random()`: the
identifier built from the host name and the next random value, and the new
number of calls. -/
def makeInstanceId (w : World) (calls : Nat) : String × Nat :=
  let r := mathRandom w calls
  (instanceId w.hostname r.1, r.2)

/-- An exception nobody catches (`app.js` installs no `uncaughtException`
handler): the runtime prints it on standard error and exits with status 1. -/
def uncaughtException (error : String) (p : Process) : Process :=
  { p with stderr := p.stderr ++ [error], listening := false, exitCode := some 1 }

/-- The call `emit('error', err)` on the server: with no listener registered for
the event the error is thrown. -/
def emitError (listeners : List (String → Process → Process)) (error : String)
    (p : Process) : Process :=
  match listeners with
  | [] => uncaughtException error p
  | _ :: _ => listeners.foldl (fun acc listener => listener error acc) p

/-- Lines 17-19: the callback given to `app.listen`; it takes no argument and
prints the startup line. -/
def listenCallback (p : Process) : Process :=
  { p with stdout := p.stdout ++ ["Server is running on http://localhost:" ++ p.port.toStr] }

/-- Listeners for the server's `error` event: `app.js` registers none; the
layer registers the listen callback or nothing, depending on the release. -/
def errorListeners (layer : HttpLayer) : List (String → Process → Process) :=
  if layer.callbackOnError then [fun _error p => listenCallback p] else []

/-- The call `app.listen(PORT, callback)`. -/
def listen (layer : HttpLayer) (bind : JSValue → BindOutcome) (p : Process) : Process :=
  let p1 := { p with listenCalls := p.listenCalls ++ [p.port] }
  match bind p.port with
  | .bound => listenCallback { p1 with listening := true }
  | .failed error => emitError (errorListeners layer) error p1

/-- End of startup: a process that neither listens nor has exited has nothing
left to wait for and ends with status 0. -/
def settle (p : Process) : Process :=
  if p.listening || p.exitCode.isSome then p else { p with exitCode := some 0 }

/-- Execution of `app.js` from the first line to the end of startup. -/
def boot (layer : HttpLayer) (w : World) : Process :=
  settle (listen layer w.bind
    { instanceId := (makeInstanceId w 0).1
      port := PORT w.env
      randomCalls := (makeInstanceId w 0).2
      listenCalls := []
      listening := false
      stdout := []
      stderr := []
      exitCode := none })

/-- One request served by a process: the new state and, when the process is
listening, what was done with the request. -/
def step (layer : HttpLayer) (p : Process) (req : Request) : Process × Option Outcome :=
  if p.listening then
    ((dispatch layer (routes layer) req p).2, some (dispatch layer (routes layer) req p).1)
  else (p, none)

/-- A finite sequence of requests served in one run. -/
def run (layer : HttpLayer) (p : Process) : List Request → Process × List (Option Outcome)
  | [] => (p, [])
  | req :: rest =>
    let r := run layer (step layer p req).1 rest
    (r.1, (step layer p req).2 :: r.2)

/-! ## Vocabulary of the statements -/

/-- A character of `[0-9a-z]`. -/
def isBase36Lower (c : Char) : Bool :=
  (decide ('0' ≤ c) && decide (c ≤ '9')) || (decide ('a' ≤ c) && decide (c ≤ 'z'))

/-- Value of a string of decimal digits. -/
def decimalValue (s : String) : Nat :=
  s.data.foldl (fun acc c => 10 * acc + (c.toNat - '0'.toNat)) 0

/-- A valid port value: a non-empty string of decimal digits that denotes an
integer between 1 and 65535. -/
def IsValidPort (s : String) : Prop :=
  s ≠ "" ∧ s.data.all Char.isDigit = true ∧ 1 ≤ decimalValue s ∧ decimalValue s ≤ 65535

instance (s : String) : Decidable (IsValidPort s) := by
  unfold IsValidPort; exact inferInstance

/-- The string the handler builds: `Hello from instance: ` and the identifier. -/
def greeting (instanceId : String) : String := "Hello from instance: " ++ instanceId

/-- A request without `If-None-Match` and `If-Modified-Since`. -/
def Request.Unconditional (req : Request) : Prop :=
  req.header "if-none-match" = none ∧ req.header "if-modified-since" = none

instance (req : Request) : Decidable req.Unconditional := by
  unfold Request.Unconditional; exact inferInstance

/-- The request `GET /` with the header `If-None-Match: *`. -/
def conditionalGetRoot : Request :=
  { method := .GET, path := "/", headers := [("host", "localhost:3000"), ("if-none-match", "*")] }

/-- An environment in which only `PORT` may be set. -/
def envWithPort (port : Option String) : ProcessEnv :=
  fun name => if name = "PORT" then port else none

/-- A layer for examples, with the least that `Conforms` asks for: paths match
by equality, and a request is fresh only with `If-None-Match: *` and neither
`If-Modified-Since` nor `Cache-Control`. -/
def sampleLayer (callbackOnError : Bool) : HttpLayer :=
  { matchesPath := fun routePath path => decide (path = routePath)
    fresh := fun req _payload =>
      decide (req.header "if-none-match" = some "*") &&
      decide (req.header "if-modified-since" = none) &&
      decide (req.header "cache-control" = none)
    callbackOnError := callbackOnError }

/-- A world for examples: host `web-1`, `Math.random()` returning `0.5`. -/
def sampleWorld (port : Option String) (bind : BindOutcome) : World :=
  { env := envWithPort port, hostname := "web-1", random := fun _ => UnitDouble.half,
    bind := fun _ => bind }

/-! ## Auxiliary notions of the proofs -/

/-- Invariant of the binary search: the first component is `x` shifted right by
the second one and is below `2^e`. -/
def Log2Inv (x e : Nat) (acc : Nat × Nat) : Prop :=
  acc.1 = x / 2 ^ acc.2 ∧ acc.1 < 2 ^ e ∧ (0 < x → 0 < acc.1)

/-- Spacing of the doubles in `[0.5, 1)`. -/
@[irreducible] def grain : Nat := 2 ^ 1021

/-- Every double below `1.0` is at most `1.0 - grain`; this is the loop
invariant on `fraction`. -/
def BelowOne (fraction : Nat) : Prop := fraction + grain ≤ one

/-! # Lemmas -/

/-! ## Leading-bit search -/

theorem log2Step_inv (x b : Nat) (acc : Nat × Nat) (h : Log2Inv x (b + b) acc) :
    Log2Inv x b (log2Step acc b) := by
  obtain ⟨h1, h2, h3⟩ := h
  unfold log2Step
  rw [Nat.one_shiftLeft, Nat.shiftRight_eq_div_pow]
  split
  · rename_i hle
    refine ⟨?_, ?_, fun _ => ?_⟩
    · simp only [h1, Nat.div_div_eq_div_mul, Nat.pow_add]
    · simp only
      rw [Nat.div_lt_iff_lt_mul (Nat.two_pow_pos _)]
      rw [← Nat.pow_add]; exact h2
    · exact Nat.div_pos hle (Nat.two_pow_pos _)
  · rename_i hle
    exact ⟨h1, Nat.lt_of_not_le hle, h3⟩


theorem floorLog2_inv (x : Nat) (hlt : x < 2 ^ 4096) :
    Log2Inv x 1 ([2048, 1024, 512, 256, 128, 64, 32, 16, 8, 4, 2, 1].foldl log2Step (x, 0)) := by
  have e4096 : (4096 : Nat) = 2048 + 2048 := by norm_num
  rw [e4096] at hlt
  have h0 : Log2Inv x (2048 + 2048) (x, 0) := ⟨by simp, hlt, fun h => h⟩
  have h1 := log2Step_inv x 2048 _ h0
  have h2 := log2Step_inv x 1024 _ h1
  have h3 := log2Step_inv x 512 _ h2
  have h4 := log2Step_inv x 256 _ h3
  have h5 := log2Step_inv x 128 _ h4
  have h6 := log2Step_inv x 64 _ h5
  have h7 := log2Step_inv x 32 _ h6
  have h8 := log2Step_inv x 16 _ h7
  have h9 := log2Step_inv x 8 _ h8
  have h10 := log2Step_inv x 4 _ h9
  have h11 := log2Step_inv x 2 _ h10
  have h12 := log2Step_inv x 1 _ h11
  simp only [List.foldl]
  exact h12

theorem floorLog2_spec (x : Nat) (hx : 0 < x) (hlt : x < 2 ^ 4096) :
    2 ^ floorLog2 x ≤ x ∧ x < 2 ^ (floorLog2 x + 1) := by
  have h := floorLog2_inv x hlt
  unfold floorLog2
  generalize List.foldl log2Step (x, 0) [2048, 1024, 512, 256, 128, 64, 32, 16, 8, 4, 2, 1] = acc at h
  obtain ⟨e1, e2, e3⟩ := h
  have hone : x / 2 ^ acc.2 = 1 := by
    have := e3 hx
    omega
  have hpos : 0 < 2 ^ acc.2 := Nat.two_pow_pos _
  constructor
  · by_contra hcon
    rw [Nat.div_eq_of_lt (Nat.lt_of_not_le hcon)] at hone
    omega
  · have := Nat.lt_succ_iff.mpr (Nat.le_of_eq hone)
    rw [Nat.div_lt_iff_lt_mul hpos] at this
    rw [Nat.pow_succ]; omega

/-! ## Rounding -/

theorem excessBits_le (x : Nat) : excessBits x ≤ floorLog2 x := Nat.sub_le _ _

theorem roundDouble_cases (x : Nat) :
    roundDouble x = x / 2 ^ excessBits x * 2 ^ excessBits x ∨
      (roundDouble x = (x / 2 ^ excessBits x + 1) * 2 ^ excessBits x ∧
        2 ^ excessBits x ≤ 2 * (x % 2 ^ excessBits x)) := by
  unfold roundDouble
  simp only [Nat.one_shiftLeft]
  split
  · rename_i h
    right
    refine ⟨rfl, ?_⟩
    rcases h with h | h
    · exact Nat.le_of_lt h
    · exact Nat.le_of_eq h.1.symm
  · left; rfl

theorem roundDouble_dvd (x : Nat) : 2 ^ excessBits x ∣ roundDouble x := by
  rcases roundDouble_cases x with h | ⟨h, _⟩ <;> rw [h] <;> exact Nat.dvd_mul_left _ _

theorem roundDouble_zero : roundDouble 0 = 0 := by decide

theorem roundDouble_le_pow (x : Nat) (hx : 0 < x) (hlt : x < 2 ^ 4096) :
    roundDouble x ≤ 2 ^ (floorLog2 x + 1) := by
  obtain ⟨_, h2⟩ := floorLog2_spec x hx hlt
  have hk := excessBits_le x
  have hc := roundDouble_cases x
  generalize excessBits x = k at hk hc
  generalize floorLog2 x = L at hk h2 ⊢
  generalize roundDouble x = y at hc ⊢
  have hsplit : 2 ^ (L + 1) = 2 ^ (L + 1 - k) * 2 ^ k := by
    rw [← Nat.pow_add, Nat.sub_add_cancel (by omega)]
  have hP : 0 < 2 ^ k := Nat.two_pow_pos _
  have hq : x / 2 ^ k < 2 ^ (L + 1 - k) := by
    rw [Nat.div_lt_iff_lt_mul hP, ← hsplit]; exact h2
  rcases hc with h | ⟨h, _⟩ <;> rw [h, hsplit]
  · exact Nat.mul_le_mul_right _ (Nat.le_of_lt hq)
  · exact Nat.mul_le_mul_right _ hq

theorem le_two_mul_roundDouble (x : Nat) (hlt : x < 2 ^ 4096) : x ≤ 2 * roundDouble x := by
  rcases Nat.eq_zero_or_pos x with h0 | hx
  · rw [h0]; exact Nat.zero_le _
  obtain ⟨h1, _⟩ := floorLog2_spec x hx hlt
  have hk := excessBits_le x
  have hc := roundDouble_cases x
  generalize excessBits x = k at hk hc
  generalize floorLog2 x = L at hk h1
  generalize roundDouble x = y at hc ⊢
  have hP : 0 < 2 ^ k := Nat.two_pow_pos _
  have hPx : 2 ^ k ≤ x := Nat.le_trans (Nat.pow_le_pow_right (by decide) hk) h1
  have hq : 1 ≤ x / 2 ^ k := (Nat.one_le_div_iff hP).mpr hPx
  have hdm := Nat.div_add_mod x (2 ^ k)
  have hrem := Nat.mod_lt x hP
  have hge : x / 2 ^ k * 2 ^ k ≤ y := by
    rcases hc with h | ⟨h, _⟩ <;> rw [h]
    exact Nat.mul_le_mul_right _ (Nat.le_succ _)
  have hPq : 2 ^ k ≤ x / 2 ^ k * 2 ^ k := Nat.le_mul_of_pos_left _ hq
  rw [Nat.mul_comm] at hdm
  generalize x / 2 ^ k * 2 ^ k = a at hdm hge hPq
  generalize x % 2 ^ k = b at hdm hrem
  generalize 2 ^ k = p at hrem hPq
  omega

/-! ## Fractions below one -/

theorem grain_pos : 0 < grain := by
  unfold grain; exact Nat.two_pow_pos _

theorem one_eq_grain : one = 9007199254740992 * grain := by
  have h : (1074 : Nat) = 53 + 1021 := rfl
  simp only [one, grain, Nat.one_shiftLeft]
  rw [h, Nat.pow_add]

theorem pow_add_grain (n : Nat) : 2 ^ (n + 1021) = 2 ^ n * grain := by
  unfold grain; rw [Nat.pow_add]

theorem pow_le_grain_mul (L n : Nat) (h : L ≤ n + 1021) : 2 ^ L ≤ 2 ^ n * grain := by
  rw [← pow_add_grain]; exact Nat.pow_le_pow_right (by decide) h

theorem lt_pow_4096 (x n : Nat) (h : x ≤ 2 ^ n * grain) (hn : n ≤ 3000) : x < 2 ^ 4096 := by
  rw [← pow_add_grain] at h
  exact Nat.lt_of_le_of_lt h (Nat.pow_lt_pow_right (by decide) (by omega))

theorem floorLog2_lt (x n : Nat) (hx : 0 < x) (h : x < 2 ^ n) (hlt : x < 2 ^ 4096) :
    floorLog2 x < n := by
  obtain ⟨h1, _⟩ := floorLog2_spec x hx hlt
  exact (Nat.pow_lt_pow_iff_right (by decide)).mp (Nat.lt_of_le_of_lt h1 h)

theorem grain_dvd_pow (k : Nat) (h : 1021 ≤ k) : grain ∣ 2 ^ k := by
  unfold grain; exact Nat.pow_dvd_pow 2 h

theorem roundDouble_mul36_lt (f : Nat) (hf : BelowOne f) : roundDouble (f * 36) < 36 * one := by
  unfold BelowOne at hf
  rw [one_eq_grain] at hf ⊢
  have hA := grain_pos
  rcases Nat.eq_zero_or_pos (f * 36) with h0 | hx
  · rw [h0, roundDouble_zero]; omega
  have hx1080 : f * 36 < 2 ^ (59 + 1021) := by
    rw [pow_add_grain]
    have : (2 : Nat) ^ 59 = 576460752303423488 := by norm_num
    rw [this]; omega
  have hlt : f * 36 < 2 ^ 4096 :=
    Nat.lt_trans hx1080 (Nat.pow_lt_pow_right (by decide) (by decide))
  have hL := floorLog2_lt _ _ hx hx1080 hlt
  have hle := roundDouble_le_pow _ hx hlt
  have hc := roundDouble_cases (f * 36)
  have hk : excessBits (f * 36) = floorLog2 (f * 36) - 52 := rfl
  generalize excessBits (f * 36) = k at hk hc
  generalize floorLog2 (f * 36) = L at hk hL hle
  generalize roundDouble (f * 36) = y at hc hle ⊢
  by_cases hcase : L + 1 ≤ 58 + 1021
  · have h58 := pow_le_grain_mul (L + 1) 58 hcase
    have : (2 : Nat) ^ 58 = 288230376151711744 := by norm_num
    rw [this] at h58
    omega
  · have hk' : k = 6 + 1021 := by omega
    subst hk'
    rw [pow_add_grain] at hc
    have h6 : (2 : Nat) ^ 6 = 64 := by norm_num
    rw [h6] at hc
    have hdm := Nat.div_add_mod (f * 36) (64 * grain)
    have hrem := Nat.mod_lt (f * 36) (show 0 < 64 * grain by omega)
    rw [Nat.mul_comm] at hdm
    rw [Nat.add_mul] at hc
    generalize f * 36 / (64 * grain) * (64 * grain) = a at hdm hc
    generalize f * 36 % (64 * grain) = b at hdm hrem hc
    rcases hc with h | ⟨h, h2⟩ <;> omega

theorem belowOne_of_grain_dvd (y : Nat) (h : grain ∣ y) (hlt : y < one) : BelowOne y := by
  obtain ⟨m, rfl⟩ := h
  unfold BelowOne
  rw [one_eq_grain] at hlt ⊢
  rw [Nat.mul_comm 9007199254740992 grain] at hlt ⊢
  have hm : m + 1 ≤ 9007199254740992 := Nat.lt_of_mul_lt_mul_left hlt
  have := Nat.mul_le_mul_left grain hm
  rw [Nat.mul_add, Nat.mul_one] at this
  exact this

theorem belowOne_of_le (y : Nat) (h : y ≤ 4503599627370496 * grain) : BelowOne y := by
  unfold BelowOne
  rw [one_eq_grain]
  omega

theorem sub_div_mul_eq_mod (y n : Nat) : y - y / n * n = y % n := by
  have := Nat.div_add_mod y n
  rw [Nat.mul_comm] at this
  omega

theorem belowOne_step (f : Nat) (hf : BelowOne f) :
    BelowOne (roundDouble (f * 36) - roundDouble (f * 36) / one * one) := by
  rw [sub_div_mul_eq_mod]
  have hA := grain_pos
  have hone : 0 < one := by rw [one_eq_grain]; omega
  rcases Nat.eq_zero_or_pos (f * 36) with h0 | hx
  · rw [h0, roundDouble_zero, Nat.zero_mod]
    exact belowOne_of_le 0 (Nat.zero_le _)
  have hx1080 : f * 36 < 2 ^ (59 + 1021) := by
    unfold BelowOne at hf
    rw [one_eq_grain] at hf
    rw [pow_add_grain]
    have : (2 : Nat) ^ 59 = 576460752303423488 := by norm_num
    rw [this]; omega
  have hlt : f * 36 < 2 ^ 4096 :=
    Nat.lt_trans hx1080 (Nat.pow_lt_pow_right (by decide) (by decide))
  have hle := roundDouble_le_pow _ hx hlt
  have hd := roundDouble_dvd (f * 36)
  have hk : excessBits (f * 36) = floorLog2 (f * 36) - 52 := rfl
  generalize excessBits (f * 36) = k at hk hd
  generalize floorLog2 (f * 36) = L at hk hle
  generalize roundDouble (f * 36) = y at hd hle ⊢
  by_cases hcase : L + 1 ≤ 52 + 1021
  · have h52 := pow_le_grain_mul (L + 1) 52 hcase
    have : (2 : Nat) ^ 52 = 4503599627370496 := by norm_num
    rw [this] at h52
    exact belowOne_of_le _ (Nat.le_trans (Nat.mod_le _ _) (Nat.le_trans hle h52))
  · have hgk : grain ∣ 2 ^ k := grain_dvd_pow k (by omega)
    have hgy : grain ∣ y := Nat.dvd_trans hgk hd
    have hgone : grain ∣ one := ⟨9007199254740992, by rw [one_eq_grain, Nat.mul_comm]⟩
    exact belowOne_of_grain_dvd _ ((Nat.dvd_mod_iff hgone).mpr hgy) (Nat.mod_lt _ hone)

theorem belowOne_of_isDouble (v : Nat) (hd : IsDouble v) (hv : v < one) : BelowOne v := by
  unfold IsDouble at hd
  rw [Nat.one_shiftLeft] at hd
  rcases Nat.eq_zero_or_pos v with h0 | hx
  · rw [h0]; exact belowOne_of_le 0 (Nat.zero_le _)
  have hv1074 : v < 2 ^ (53 + 1021) := by
    rw [pow_add_grain]
    have : (2 : Nat) ^ 53 = 9007199254740992 := by norm_num
    rw [this, ← one_eq_grain]; exact hv
  have hlt : v < 2 ^ 4096 :=
    Nat.lt_trans hv1074 (Nat.pow_lt_pow_right (by decide) (by decide))
  have hL := floorLog2_lt _ _ hx hv1074 hlt
  obtain ⟨_, h2⟩ := floorLog2_spec v hx hlt
  have hk : excessBits v = floorLog2 v - 52 := rfl
  generalize excessBits v = k at hk hd
  generalize floorLog2 v = L at hk hL h2
  by_cases hcase : L + 1 ≤ 52 + 1021
  · have h52 := pow_le_grain_mul (L + 1) 52 hcase
    have : (2 : Nat) ^ 52 = 4503599627370496 := by norm_num
    rw [this] at h52
    exact belowOne_of_le _ (Nat.le_of_lt (Nat.lt_of_lt_of_le h2 h52))
  · have hgk : grain ∣ 2 ^ k := grain_dvd_pow k (by omega)
    exact belowOne_of_grain_dvd _ (Nat.dvd_trans hgk hd) hv

/-! ## Digits written by the conversion -/

theorem charAt_mem (d : Nat) (h : d < 36) : charAt d ∈ chars := by
  interval_cases d <;> decide

theorem backTrace_mem (buffer : List Char) (h : ∀ c ∈ buffer, c ∈ chars) :
    ∀ c ∈ (backTrace 36 buffer).1, c ∈ chars := by
  induction buffer with
  | nil => intro c hc; simp [backTrace] at hc
  | cons a rest ih =>
    unfold backTrace
    split
    · rename_i hlt
      intro c hc
      rcases List.mem_cons.mp hc with hc | hc
      · rw [hc]; exact charAt_mem _ hlt
      · exact h c (List.mem_cons_of_mem _ hc)
    · exact ih (fun c hc => h c (List.mem_cons_of_mem _ hc))

theorem fractionLoop_mem (fuel : Nat) : ∀ (fraction delta : Nat) (buffer : List Char)
    (res : List Char × Bool), BelowOne fraction → (∀ c ∈ buffer, c ∈ chars) →
    fractionLoop 36 fuel fraction delta buffer = some res → ∀ c ∈ res.1, c ∈ chars := by
  induction fuel with
  | zero => intro _ _ _ _ _ _ h; simp [fractionLoop] at h
  | succ n ih =>
    intro fraction delta buffer res hf hb h
    have hshift : roundDouble (fraction * 36) < one * 36 := by
      rw [Nat.mul_comm one 36]; exact roundDouble_mul36_lt fraction hf
    have hdigit : roundDouble (fraction * 36) / one < 36 := Nat.div_lt_of_lt_mul hshift
    have hb1 : ∀ c ∈ charAt (roundDouble (fraction * 36) / one) :: buffer, c ∈ chars := by
      intro c hc
      rcases List.mem_cons.mp hc with hc | hc
      · rw [hc]; exact charAt_mem _ hdigit
      · exact hb c hc
    unfold fractionLoop at h
    simp only at h
    split at h
    · cases h
      exact backTrace_mem _ hb1
    · split at h
      · exact ih _ _ _ _ (belowOne_step fraction hf) hb1 h
      · cases h
        exact hb1

theorem fractionLoop_isSome (fuel : Nat) : ∀ (fraction delta : Nat) (buffer : List Char),
    delta ≤ fraction → fraction < one → one ≤ delta * 2 ^ fuel →
    (fractionLoop 36 (fuel + 1) fraction delta buffer).isSome = true := by
  induction fuel with
  | zero =>
    intro fraction delta buffer h1 h2 h3
    rw [Nat.pow_zero, Nat.mul_one] at h3
    exact absurd (Nat.lt_of_le_of_lt (Nat.le_trans h3 h1) h2) (Nat.lt_irrefl _)
  | succ n ih =>
    intro fraction delta buffer h1 h2 h3
    have hone : 0 < one := Nat.lt_of_le_of_lt (Nat.zero_le _) h2
    have hlt : delta * 36 < 2 ^ 4096 := by
      have h59 : delta * 36 ≤ 2 ^ 59 * grain := by
        have : (2 : Nat) ^ 59 = 576460752303423488 := by norm_num
        rw [this]
        rw [one_eq_grain] at h2
        omega
      exact lt_pow_4096 _ 59 h59 (by decide)
    have hgrow := le_two_mul_roundDouble (delta * 36) hlt
    have hmod : roundDouble (fraction * 36) - roundDouble (fraction * 36) / one * one < one := by
      rw [sub_div_mul_eq_mod]; exact Nat.mod_lt _ hone
    unfold fractionLoop
    simp only
    split
    · rfl
    · split
      · rename_i hcont
        refine ih _ _ _ hcont hmod ?_
        rw [Nat.pow_succ] at h3
        have h2d : delta * 2 ≤ roundDouble (delta * 36) := by omega
        have hmul := Nat.mul_le_mul_right (2 ^ n) h2d
        have : delta * (2 ^ n * 2) = delta * 2 * 2 ^ n := by ring
        rw [this] at h3
        exact Nat.le_trans h3 hmul
      · rfl

theorem radixString_drop_two (v : Nat) (hd : IsDouble v) (hv : v < one) :
    ∀ c ∈ (DoubleToRadixCString v 36).data.drop 2, c ∈ chars := by
  have hf := belowOne_of_isDouble v hd hv
  have hdiv : v / one = 0 := Nat.div_eq_of_lt hv
  have hint0 : integerDigits 36 (0 + 1) 0 [] = [charAt 0] := by decide
  unfold DoubleToRadixCString
  simp only [hdiv, Nat.zero_mul, Nat.sub_zero, Nat.zero_add]
  generalize max 1 (mulHalf (nextDoubleGap v)) = delta
  by_cases hle : delta ≤ v
  · simp only [hle, if_true, true_and]
    cases hloop : fractionLoop 36 fractionFuel v delta [] with
    | none => simp [integerDigits]
    | some res =>
      have hmem := fractionLoop_mem _ _ _ _ _ hf (by simp) hloop
      simp only [Option.getD_some]
      by_cases hcarry : res.2 = false
      · simp only [hcarry, if_true, hint0]
        intro c hc
        simp only [Bool.false_eq_true, if_false, hint0, List.singleton_append,
          List.drop_succ_cons, List.drop_zero, List.mem_reverse] at hc
        exact hmem c hc
      · simp only [hcarry, if_false]
        simp only [Bool.not_eq_false] at hcarry
        simp [hcarry, integerDigits]
  · simp [hle, integerDigits]

/-! ## `substr` -/

theorem substr_eq (s : String) (a b : Nat) :
    substr s a b = String.mk ((s.data.drop a).take b) := by
  unfold substr
  simp only [String.length]
  congr 1
  by_cases h : s.data.length ≤ a
  · rw [Nat.min_eq_right h, List.drop_eq_nil_of_le (Nat.le_refl _), List.drop_eq_nil_of_le h,
      List.take_nil, List.take_nil]
  · have ha : min a s.data.length = a := Nat.min_eq_left (by omega)
    rw [ha, List.take_eq_take, List.length_drop]
    omega

theorem substr_length (s : String) (a b : Nat) :
    (substr s a b).length = min b (s.length - a) := by
  rw [substr_eq]
  simp only [String.length, List.length_take, List.length_drop]

theorem fractionLoop_terminates (v delta : Nat) (hpos : 0 < delta) (hle : delta ≤ v)
    (hv : v < one) : (fractionLoop 36 fractionFuel v delta []).isSome = true := by
  have h : one ≤ delta * 2 ^ 1074 := by
    have : one = 2 ^ 1074 := by simp only [one, Nat.one_shiftLeft]
    rw [this]
    exact Nat.le_mul_of_pos_left _ hpos
  exact fractionLoop_isSome 1074 v delta [] hle hv h

theorem chars_spec : ∀ c ∈ chars, isBase36Lower c = true ∧ c ≠ '.' ∧ c ≠ '-' ∧ c ≠ '+' ∧
    c.isUpper = false := by decide

theorem randomToken_subset_chars (r : UnitDouble) : ∀ c ∈ (randomToken r).data, c ∈ chars := by
  intro c hc
  unfold randomToken at hc
  rw [substr_eq] at hc
  have hc2 := List.mem_of_mem_take hc
  unfold numberToString at hc2
  split at hc2
  · simp at hc2
  · exact radixString_drop_two r.val r.isDouble r.lt_one c hc2


/-! ## The program: routing and startup -/

theorem send_sent (layer : HttpLayer) (req : Request) (res : Response) (payload : String) :
    (res.send layer req payload).sent = some payload := rfl

theorem send_status_cases (layer : HttpLayer) (req : Request) (payload : String) :
    ((({} : Response).send layer req payload).statusCode = 200 ∧
      (({} : Response).send layer req payload).body =
        some (if req.method = .HEAD then "" else payload)) ∨
    ((({} : Response).send layer req payload).statusCode = 304 ∧
      (({} : Response).send layer req payload).body = some "") := by
  unfold Response.send
  by_cases h : requestFresh layer req {} payload = true
  · right
    simp [h]
  · left
    simp [h]

theorem send_unconditional (layer : HttpLayer) (hl : layer.Conforms) (req : Request)
    (hreq : req.header "if-none-match" = none ∧ req.header "if-modified-since" = none)
    (payload : String) :
    ({} : Response).send layer req payload =
      { statusCode := 200, sent := some payload,
        body := some (if req.method = .HEAD then "" else payload) } := by
  have hf : requestFresh layer req {} payload = false := by
    unfold requestFresh
    rw [hl.unconditional_stale req payload hreq.1 hreq.2]
    simp
  unfold Response.send
  simp [hf]

theorem send_conditionalGetRoot (layer : HttpLayer) (hl : layer.Conforms) (payload : String) :
    ({} : Response).send layer conditionalGetRoot payload =
      { statusCode := 304, sent := some payload, body := some "" } := by
  have hfresh : layer.fresh conditionalGetRoot payload = true :=
    hl.none_match_any_fresh conditionalGetRoot payload (by decide) (by decide) (by decide)
  have hf : requestFresh layer conditionalGetRoot {} payload = true := by
    unfold requestFresh
    rw [hfresh]
    decide
  unfold Response.send
  simp [hf]

theorem sampleLayer_conforms (callbackOnError : Bool) : (sampleLayer callbackOnError).Conforms where
  root_matches := by simp [sampleLayer]
  unconditional_stale := by
    intro req payload h1 _
    simp [sampleLayer, h1]
  none_match_any_fresh := by
    intro req payload h1 h2 h3
    simp [sampleLayer, h1, h2, h3]

theorem dispatch_routes (layer : HttpLayer) (req : Request) (p : Process) :
    dispatch layer (routes layer) req p =
      (if layer.matchesPath "/" req.path = true then
        if req.method = .GET ∨ req.method = .HEAD then
          Outcome.handled (({} : Response).send layer req (greeting p.instanceId))
        else if req.method = .OPTIONS then Outcome.allow [.GET, .HEAD]
        else Outcome.notFound
      else Outcome.notFound, p) := by
  by_cases hp : layer.matchesPath "/" req.path = true
  · cases hm : req.method <;>
      simp [dispatch, routes, dispatchFrom, Route.handlesMethod, Route.options, rootHandler,
        greeting, hp, hm]
  · simp [dispatch, routes, dispatchFrom, hp]

theorem step_eq (layer : HttpLayer) (p : Process) (req : Request) :
    step layer p req =
      (p, if p.listening then some (dispatch layer (routes layer) req p).1 else none) := by
  unfold step
  split
  · rw [dispatch_routes]
  · rfl

theorem run_eq (layer : HttpLayer) (p : Process) (reqs : List Request) :
    run layer p reqs = (p, reqs.map (fun req => (step layer p req).2)) := by
  induction reqs with
  | nil => rfl
  | cons req rest ih =>
    have hstep : (step layer p req).1 = p := by rw [step_eq]
    simp only [run, hstep, ih, List.map_cons]

theorem boot_bound (layer : HttpLayer) (w : World) (h : w.bind (PORT w.env) = .bound) :
    boot layer w =
      { instanceId := instanceId w.hostname (w.random 0), port := PORT w.env, randomCalls := 1,
        listenCalls := [PORT w.env], listening := true,
        stdout := ["Server is running on http://localhost:" ++ (PORT w.env).toStr],
        stderr := [], exitCode := none } := by
  unfold boot listen
  simp only [h]
  rfl

theorem boot_failed (layer : HttpLayer) (w : World) (error : String)
    (h : w.bind (PORT w.env) = .failed error) :
    boot layer w =
      if layer.callbackOnError = true then
        { instanceId := instanceId w.hostname (w.random 0), port := PORT w.env, randomCalls := 1,
          listenCalls := [PORT w.env], listening := false,
          stdout := ["Server is running on http://localhost:" ++ (PORT w.env).toStr],
          stderr := [], exitCode := some 0 }
      else
        { instanceId := instanceId w.hostname (w.random 0), port := PORT w.env, randomCalls := 1,
          listenCalls := [PORT w.env], listening := false, stdout := [], stderr := [error],
          exitCode := some 1 } := by
  unfold boot listen
  simp only [h]
  by_cases hc : layer.callbackOnError = true
  · simp only [hc, errorListeners, if_true]
    rfl
  · simp only [hc, errorListeners, if_false]
    rfl

theorem boot_listenCalls (layer : HttpLayer) (w : World) :
    (boot layer w).listenCalls = [PORT w.env] := by
  cases h : w.bind (PORT w.env) with
  | bound => rw [boot_bound layer w h]
  | failed error =>
    rw [boot_failed layer w error h]
    split <;> rfl
/-! ## Conformance of the conversion with outputs of the engine -/

theorem numberToString_zero : numberToString UnitDouble.zero 36 = "0" := by decide

theorem numberToString_half : numberToString UnitDouble.half 36 = "0.i" := by decide

theorem numberToString_tenth : numberToString UnitDouble.tenth 36 = "0.3lllllllllm" := by decide

theorem numberToString_pred_one :
    numberToString UnitDouble.pred_one 36 = "0.zzzzzzzzzza" := by decide

theorem randomToken_tenth : randomToken UnitDouble.tenth = "3lllll" := by decide

set_option maxRecDepth 100000 in
theorem randomToken_tiny : randomToken UnitDouble.tiny = "000000" := by decide

/-! ## The claims -/

/-- C1 (counterexample): for `r = 0` the conversion yields `"0"` and the token is
empty; for `r = 0.5` it yields `"0.i"` and the token is the single character
`i`. So the token does not always have 6 characters. -/
theorem instanceId_token_not_always_six :
    numberToString UnitDouble.zero 36 = "0" ∧
    instanceId "web-1" UnitDouble.zero = "web-1-" ∧
    (randomToken UnitDouble.zero).length = 0 ∧
    numberToString UnitDouble.half 36 = "0.i" ∧
    instanceId "web-1" UnitDouble.half = "web-1-i" ∧
    (randomToken UnitDouble.half).length = 1 ∧
    ¬ (∀ (h : String) (r : UnitDouble), ∃ token : String,
        instanceId h r = h ++ "-" ++ token ∧ token.length = 6 ∧ token = randomToken r) := by
  refine ⟨by decide, by decide, by decide, by decide, by decide, by decide, ?_⟩
  intro hall
  obtain ⟨token, _, hlen, htoken⟩ := hall "web-1" UnitDouble.zero
  rw [htoken] at hlen
  revert hlen
  decide

/-- C1 (amended): for every hostname `h` and every double `r` in `[0, 1)` the
identifier is `h`, a single hyphen, and the token `r.toString(36).substr(2, 6)`;
the token has `min(6, length(r.toString(36)) - 2)` characters, hence at most 6. -/
theorem instanceId_eq_hostname_hyphen_token (h : String) (r : UnitDouble) :
    instanceId h r = h ++ "-" ++ randomToken r ∧
    randomToken r = substr (numberToString r 36) 2 6 ∧
    (randomToken r).length = min 6 ((numberToString r 36).length - 2) ∧
    (randomToken r).length ≤ 6 ∧
    (instanceId h r).length = h.length + 1 + (randomToken r).length := by
  have hlen : (randomToken r).length = min 6 ((numberToString r 36).length - 2) :=
    substr_length _ 2 6
  refine ⟨rfl, rfl, hlen, ?_, ?_⟩
  · rw [hlen]; exact Nat.min_le_left _ _
  · unfold instanceId
    rw [String.length_append, String.length_append]
    rfl

/-- C2 (counterexample): `GET /` with the header `If-None-Match: *` reaches the
handler and is answered with status 304 and an empty body, in every layer that
conforms; so the reply does depend on a field of the request. -/
theorem conditional_get_root_not_modified :
    (sampleLayer false).Conforms ∧
    (dispatch (sampleLayer false) (routes (sampleLayer false)) conditionalGetRoot
        (boot (sampleLayer false) (sampleWorld none .bound))).1 =
      .handled { statusCode := 304, sent := some "Hello from instance: web-1-i",
                 body := some "" } ∧
    (∀ (layer : HttpLayer) (p : Process), layer.Conforms →
      (rootHandler layer conditionalGetRoot {} p).1.statusCode = 304 ∧
      (rootHandler layer conditionalGetRoot {} p).1.body = some "") ∧
    ¬ (∀ (layer : HttpLayer) (p : Process) (req : Request), layer.Conforms →
        (rootHandler layer req {} p).1.statusCode = 200 ∧
        (rootHandler layer req {} p).1.body = some ("Hello from instance: " ++ p.instanceId)) := by
  have hall : ∀ (layer : HttpLayer) (p : Process), layer.Conforms →
      (rootHandler layer conditionalGetRoot {} p).1.statusCode = 304 ∧
      (rootHandler layer conditionalGetRoot {} p).1.body = some "" := by
    intro layer p hl
    have hs := send_conditionalGetRoot layer hl ("Hello from instance: " ++ p.instanceId)
    show (({} : Response).send layer conditionalGetRoot _).statusCode = 304 ∧
      (({} : Response).send layer conditionalGetRoot _).body = some ""
    rw [hs]
    exact ⟨rfl, rfl⟩
  refine ⟨sampleLayer_conforms false, by decide, hall, ?_⟩
  intro hclaim
  have h200 := (hclaim (sampleLayer false) (boot (sampleLayer false) (sampleWorld none .bound))
    conditionalGetRoot (sampleLayer_conforms false)).1
  have h304 := (hall (sampleLayer false) (boot (sampleLayer false) (sampleWorld none .bound))
    (sampleLayer_conforms false)).1
  rw [h304] at h200
  exact absurd h200 (by decide)

/-- C2 (amended): whatever the request, the handler registered for `GET /` leaves
the process as it is, does not set the status, and hands `res.send` exactly
`"Hello from instance: "` followed by the identifier. The reply has status 200
or 304; to a GET request that carries neither `If-None-Match` nor
`If-Modified-Since` it has status 200 and exactly that string as body, and so
has every reply with status 200 to a GET request. -/
theorem rootHandler_sends_hello (layer : HttpLayer) (p : Process) (req : Request) :
    (routes layer).map (fun route => (route.method, route.path)) = [(Method.GET, "/")] ∧
    (rootHandler layer req {} p).2 = p ∧
    (∀ res : Response,
      (rootHandler layer req res p).1.sent = some ("Hello from instance: " ++ p.instanceId)) ∧
    (∀ (req' : Request) (res : Response),
      (rootHandler layer req' res p).1.sent = (rootHandler layer req res p).1.sent) ∧
    ((rootHandler layer req {} p).1.statusCode = 200 ∨
      (rootHandler layer req {} p).1.statusCode = 304) ∧
    (req.method = .GET → (rootHandler layer req {} p).1.statusCode = 200 →
      (rootHandler layer req {} p).1.body = some ("Hello from instance: " ++ p.instanceId)) ∧
    (layer.Conforms → req.method = .GET → req.Unconditional →
      (rootHandler layer req {} p).1 =
        { statusCode := 200, sent := some ("Hello from instance: " ++ p.instanceId),
          body := some ("Hello from instance: " ++ p.instanceId) }) := by
  refine ⟨rfl, rfl, fun _ => rfl, fun _ _ => rfl, ?_, ?_, ?_⟩
  · rcases send_status_cases layer req ("Hello from instance: " ++ p.instanceId) with h | h
    · exact Or.inl h.1
    · exact Or.inr h.1
  · intro hm hs
    rcases send_status_cases layer req ("Hello from instance: " ++ p.instanceId) with h | h
    · have hb := h.2
      simp only [hm] at hb
      exact hb
    · have h304 : (rootHandler layer req {} p).1.statusCode = 304 := h.1
      rw [h304] at hs
      exact absurd hs (by decide)
  · intro hl hm hu
    show ({} : Response).send layer req _ = _
    rw [send_unconditional layer hl req hu, hm]
    rfl

/-- C2 (witness): a plain `GET /` is answered 200 with the greeting as body. -/
theorem rootHandler_sends_hello_witness :
    (rootHandler (sampleLayer false) { method := .GET, path := "/" } {}
        (boot (sampleLayer false) (sampleWorld none .bound))).1 =
      { statusCode := 200, sent := some "Hello from instance: web-1-i",
        body := some "Hello from instance: web-1-i" } :=
  (rootHandler_sends_hello (sampleLayer false)
    (boot (sampleLayer false) (sampleWorld none .bound)) { method := .GET, path := "/" }).2.2.2.2.2.2
    (sampleLayer_conforms false) rfl (by decide)

/-- C3: every character of the token `r.toString(36).substr(2, 6)` is a digit
`0-9` or a lowercase letter `a-z` (never the radix point, a sign or an uppercase
letter), so the string the handler sends, and the body of every reply with
status 200 to `GET /`, is `"Hello from instance: "`, the hostname, a hyphen, and
characters of `[0-9a-z]` only. -/
theorem randomToken_chars_base36 (r : UnitDouble) :
    (∀ c ∈ (randomToken r).data, isBase36Lower c = true ∧ c ≠ '.' ∧ c ≠ '-' ∧ c ≠ '+' ∧
      c.isUpper = false) ∧
    (∀ (layer : HttpLayer) (h : String) (req : Request) (res : Response) (p : Process),
      (rootHandler layer req res { p with instanceId := instanceId h r }).1.sent =
        some ("Hello from instance: " ++ h ++ "-" ++ randomToken r)) ∧
    (∀ (layer : HttpLayer) (h : String) (headers : List (String × String)) (body : String)
      (p : Process) (res : Response),
      (dispatch layer (routes layer)
          { method := .GET, path := "/", headers := headers, body := body }
          { p with instanceId := instanceId h r }).1 = .handled res →
      res.statusCode = 200 →
      res.body = some ("Hello from instance: " ++ h ++ "-" ++ randomToken r)) := by
  refine ⟨fun c hc => chars_spec c (randomToken_subset_chars r c hc),
    fun layer h req res p => ?_, fun layer h headers body p res hd hs => ?_⟩
  · simp [rootHandler, Response.send, instanceId, String.append_assoc]
  · rw [dispatch_routes] at hd
    simp only at hd
    split at hd
    · simp only [true_or, if_true, Outcome.handled.injEq] at hd
      rcases send_status_cases layer
          { method := .GET, path := "/", headers := headers, body := body }
          (greeting (instanceId h r)) with hc | hc
      · rw [← hd]
        rw [hc.2]
        simp [greeting, instanceId, String.append_assoc]
      · rw [← hd, hc.1] at hs
        exact absurd hs (by decide)
    · cases hd

/-- C3 (witness): the token for `r = 0.5` is `"i"`, a character of `[0-9a-z]`. -/
theorem randomToken_chars_base36_witness :
    'i' ∈ (randomToken UnitDouble.half).data ∧ isBase36Lower 'i' = true :=
  ⟨by decide, ((randomToken_chars_base36 UnitDouble.half).1 'i' (by decide)).1⟩

/-- C4 (counterexample): in one run of a listening process a plain `GET /` and a
`GET /` with `If-None-Match: *` get different bodies, the greeting and the
empty body of a 304 reply. -/
theorem conditional_get_root_body_differs :
    (sampleLayer false).Conforms ∧
    (run (sampleLayer false) (boot (sampleLayer false) (sampleWorld none .bound))
        [{ method := .GET, path := "/" }, conditionalGetRoot]).2 =
      [some (.handled { statusCode := 200, sent := some "Hello from instance: web-1-i",
                        body := some "Hello from instance: web-1-i" }),
       some (.handled { statusCode := 304, sent := some "Hello from instance: web-1-i",
                        body := some "" })] ∧
    (∀ (layer : HttpLayer) (w : World), layer.Conforms → w.bind (PORT w.env) = .bound →
      (run layer (boot layer w) [{ method := .GET, path := "/" }, conditionalGetRoot]).2 =
        [some (.handled { statusCode := 200, sent := some (greeting (boot layer w).instanceId),
                          body := some (greeting (boot layer w).instanceId) }),
         some (.handled { statusCode := 304, sent := some (greeting (boot layer w).instanceId),
                          body := some "" })]) := by
  refine ⟨sampleLayer_conforms false, by decide, ?_⟩
  intro layer w hl hb
  have hlisten : (boot layer w).listening = true := by rw [boot_bound layer w hb]
  rw [run_eq]
  simp only [List.map_cons, List.map_nil, step_eq, hlisten, if_true, dispatch_routes]
  have h1 : layer.matchesPath "/" ({ method := .GET, path := "/" } : Request).path = true :=
    hl.root_matches
  have h2 : layer.matchesPath "/" conditionalGetRoot.path = true := hl.root_matches
  rw [if_pos h1, if_pos h2, send_conditionalGetRoot layer hl,
    send_unconditional layer hl _ (by decide)]
  rfl

/-- C4 (amended): a request step leaves the process state unchanged, in
particular `instanceId` and the number of calls of `Math.random()` (one, made at
startup). So whenever the handler runs in a run it hands the same string to
`res.send`, and any two replies with status 200 to GET requests have the same
body, the greeting with the identifier. -/
theorem instanceId_fixed_for_process_lifetime (layer : HttpLayer) (p : Process)
    (reqs : List Request) :
    (∀ req : Request, (step layer p req).1 = p) ∧
    (run layer p reqs).1.instanceId = p.instanceId ∧
    (run layer p reqs).1.randomCalls = p.randomCalls ∧
    (∀ (i j : Nat) (ra rb : Response),
      (run layer p reqs).2[i]? = some (some (.handled ra)) →
      (run layer p reqs).2[j]? = some (some (.handled rb)) →
      ra.sent = some ("Hello from instance: " ++ p.instanceId) ∧ rb.sent = ra.sent) ∧
    (∀ (i j : Nat) (a b : Request) (ra rb : Response),
      reqs[i]? = some a → reqs[j]? = some b → a.method = .GET → b.method = .GET →
      (run layer p reqs).2[i]? = some (some (.handled ra)) →
      (run layer p reqs).2[j]? = some (some (.handled rb)) →
      ra.statusCode = 200 → rb.statusCode = 200 →
      ra.body = rb.body ∧ ra.body = some ("Hello from instance: " ++ p.instanceId)) ∧
    (∀ w : World, (boot layer w).instanceId = instanceId w.hostname (w.random 0) ∧
      (boot layer w).randomCalls = 1) := by
  have hrun := run_eq layer p reqs
  have hout : ∀ (i : Nat) (a : Request) (ra : Response), reqs[i]? = some a →
      (run layer p reqs).2[i]? = some (some (.handled ra)) →
      ra = ({} : Response).send layer a (greeting p.instanceId) := by
    intro i a ra ha hr
    rw [hrun] at hr
    simp only [List.getElem?_map, ha, Option.map_some', step_eq, dispatch_routes,
      Option.some.injEq] at hr
    split at hr
    · simp only [Option.some.injEq] at hr
      split at hr
      · split at hr
        · exact (Outcome.handled.inj hr).symm
        · split at hr <;> cases hr
      · cases hr
    · cases hr
  have hreq : ∀ (i : Nat) (o : Option Outcome), (run layer p reqs).2[i]? = some o →
      ∃ a, reqs[i]? = some a := by
    intro i o ho
    rw [hrun] at ho
    simp only [List.getElem?_map] at ho
    cases ha : reqs[i]? with
    | none => rw [ha] at ho; cases ho
    | some a => exact ⟨a, rfl⟩
  refine ⟨fun req => by rw [step_eq], by rw [hrun], by rw [hrun], ?_, ?_, fun w => ?_⟩
  · intro i j ra rb hi hj
    obtain ⟨a, ha⟩ := hreq i _ hi
    obtain ⟨b, hb⟩ := hreq j _ hj
    rw [hout i a ra ha hi, hout j b rb hb hj]
    exact ⟨rfl, rfl⟩
  · intro i j a b ra rb ha hb hma hmb hi hj hsa hsb
    have ea := hout i a ra ha hi
    have eb := hout j b rb hb hj
    have hbody : ∀ (c : Request) (rc : Response), c.method = .GET →
        rc = ({} : Response).send layer c (greeting p.instanceId) → rc.statusCode = 200 →
        rc.body = some ("Hello from instance: " ++ p.instanceId) := by
      intro c rc hmc ec hsc
      rcases send_status_cases layer c (greeting p.instanceId) with h | h
      · rw [ec, h.2]
        simp [hmc, greeting]
      · rw [ec, h.1] at hsc
        exact absurd hsc (by decide)
    rw [hbody a ra hma ea hsa, hbody b rb hmb eb hsb]
    exact ⟨rfl, rfl⟩
  · cases h : w.bind (PORT w.env) with
    | bound => rw [boot_bound layer w h]; exact ⟨rfl, rfl⟩
    | failed error =>
      rw [boot_failed layer w error h]
      split <;> exact ⟨rfl, rfl⟩

/-- C4 (witness): two plain `GET /` requests around a `POST /` in one run of a
listening process get status 200 and the same body. -/
theorem instanceId_fixed_for_process_lifetime_witness :
    (run (sampleLayer false) (boot (sampleLayer false) (sampleWorld none .bound))
      [{ method := .GET, path := "/" }, { method := .POST, path := "/" },
       { method := .GET, path := "/", headers := [("accept", "text/html")] }]).2[0]? =
      some (some (.handled { statusCode := 200, sent := some "Hello from instance: web-1-i",
                             body := some "Hello from instance: web-1-i" })) ∧
    (run (sampleLayer false) (boot (sampleLayer false) (sampleWorld none .bound))
      [{ method := .GET, path := "/" }, { method := .POST, path := "/" },
       { method := .GET, path := "/", headers := [("accept", "text/html")] }]).2[2]? =
      some (some (.handled { statusCode := 200, sent := some "Hello from instance: web-1-i",
                             body := some "Hello from instance: web-1-i" })) ∧
    (some "Hello from instance: web-1-i" : Option String) =
      some ("Hello from instance: " ++
        (boot (sampleLayer false) (sampleWorld none .bound)).instanceId) :=
  ⟨by decide, by decide,
   ((instanceId_fixed_for_process_lifetime (sampleLayer false)
      (boot (sampleLayer false) (sampleWorld none .bound))
      [{ method := .GET, path := "/" }, { method := .POST, path := "/" },
       { method := .GET, path := "/", headers := [("accept", "text/html")] }]).2.2.2.2.1
    0 2 { method := .GET, path := "/" }
    { method := .GET, path := "/", headers := [("accept", "text/html")] }
    { statusCode := 200, sent := some "Hello from instance: web-1-i",
      body := some "Hello from instance: web-1-i" }
    { statusCode := 200, sent := some "Hello from instance: web-1-i",
      body := some "Hello from instance: web-1-i" }
    rfl rfl rfl rfl (by decide) (by decide) rfl rfl).2⟩

/-- C5: with `PORT` absent the port passed to `app.listen` is 3000; with `PORT`
set to a valid port value `p` it is `p` itself. -/
theorem PORT_selection (layer : HttpLayer) (w : World) :
    (w.env "PORT" = none →
      PORT w.env = .number 3000 ∧ (boot layer w).listenCalls = [.number 3000]) ∧
    (∀ p : String, w.env "PORT" = some p → IsValidPort p →
      PORT w.env = .string p ∧ (boot layer w).listenCalls = [.string p]) := by
  have hcalls := boot_listenCalls layer w
  constructor
  · intro h
    have hp : PORT w.env = .number 3000 := by
      simp [PORT, ProcessEnv.get, h, JSValue.or, JSValue.toBoolean]
    exact ⟨hp, by rw [hcalls, hp]⟩
  · intro p h hv
    have hp : PORT w.env = .string p := by
      simp [PORT, ProcessEnv.get, h, JSValue.or, JSValue.toBoolean, hv.1]
    exact ⟨hp, by rw [hcalls, hp]⟩

/-- C5 (witness): `PORT=8080` gives `"8080"`, no `PORT` gives 3000. -/
theorem PORT_selection_witness :
    IsValidPort "8080" ∧
    (boot (sampleLayer false) (sampleWorld (some "8080") .bound)).listenCalls =
      [.string "8080"] ∧
    (boot (sampleLayer false) (sampleWorld none .bound)).listenCalls = [.number 3000] :=
  ⟨by decide,
   ((PORT_selection (sampleLayer false) (sampleWorld (some "8080") .bound)).2 "8080" rfl
      (by decide)).2,
   ((PORT_selection (sampleLayer false) (sampleWorld none .bound)).1 rfl).2⟩

/-- C6 (counterexample): `PORT=abc`, `PORT=-1` and `PORT=70000` are not valid
port values, and each is passed to `app.listen` as it is, not replaced by 3000. -/
theorem PORT_invalid_value_is_passed_through :
    ¬ IsValidPort "abc" ∧
    PORT (envWithPort (some "abc")) = .string "abc" ∧
    PORT (envWithPort (some "abc")) ≠ .number 3000 ∧
    (boot (sampleLayer false) (sampleWorld (some "abc") .bound)).listenCalls =
      [.string "abc"] ∧
    ¬ IsValidPort "-1" ∧
    (boot (sampleLayer false) (sampleWorld (some "-1") .bound)).listenCalls =
      [.string "-1"] ∧
    ¬ IsValidPort "70000" ∧
    (boot (sampleLayer false) (sampleWorld (some "70000") .bound)).listenCalls =
      [.string "70000"] := by
  refine ⟨by decide, by decide, by decide, by decide, by decide, by decide, by decide, by decide⟩

/-- C6 (amended): the port is 3000 exactly when `PORT` is unset or the empty
string; every non-empty value of `PORT`, valid or not, is passed to
`app.listen` unchanged. -/
theorem PORT_default_iff_unset_or_empty (layer : HttpLayer) (w : World) :
    (PORT w.env = .number 3000 ↔ w.env "PORT" = none ∨ w.env "PORT" = some "") ∧
    (∀ p : String, w.env "PORT" = some p → p ≠ "" → PORT w.env = .string p) ∧
    (boot layer w).listenCalls = [PORT w.env] := by
  refine ⟨?_, ?_, boot_listenCalls layer w⟩
  · cases h : w.env "PORT" with
    | none => simp [PORT, ProcessEnv.get, h, JSValue.or, JSValue.toBoolean]
    | some p =>
      by_cases hp : p = ""
      · simp [PORT, ProcessEnv.get, h, JSValue.or, JSValue.toBoolean, hp]
      · simp [PORT, ProcessEnv.get, h, JSValue.or, JSValue.toBoolean, hp]
  · intro p h hp
    simp [PORT, ProcessEnv.get, h, JSValue.or, JSValue.toBoolean, hp]

/-- C6 (witness): an empty `PORT` gives 3000, `PORT=abc` gives `"abc"`. -/
theorem PORT_default_iff_unset_or_empty_witness :
    PORT (envWithPort (some "")) = .number 3000 ∧
    PORT (envWithPort (some "abc")) = .string "abc" :=
  ⟨(PORT_default_iff_unset_or_empty (sampleLayer false)
      (sampleWorld (some "") .bound)).1.mpr (Or.inr rfl),
   (PORT_default_iff_unset_or_empty (sampleLayer false)
      (sampleWorld (some "abc") .bound)).2.1 "abc" rfl (by decide)⟩

/-- C7 (counterexample): with a layer that registers the listen callback for the
server's `error` event, a failed bind calls the callback: the process prints the
startup line, prints nothing on standard error and ends with status 0. -/
theorem bind_failure_exits_zero_with_callback :
    (sampleLayer true).Conforms ∧
    (boot (sampleLayer true)
        (sampleWorld none (.failed "listen EADDRINUSE: address already in use :::3000"))).exitCode
      = some 0 ∧
    (boot (sampleLayer true)
        (sampleWorld none (.failed "listen EADDRINUSE: address already in use :::3000"))).stderr
      = [] ∧
    (boot (sampleLayer true)
        (sampleWorld none (.failed "listen EADDRINUSE: address already in use :::3000"))).stdout
      = ["Server is running on http://localhost:3000"] ∧
    (∀ (layer : HttpLayer) (w : World) (error : String), layer.callbackOnError = true →
      w.bind (PORT w.env) = .failed error →
      (boot layer w).exitCode = some 0 ∧ (boot layer w).stderr = []) := by
  refine ⟨sampleLayer_conforms true, by decide, by decide, by decide, ?_⟩
  intro layer w error hc h
  rw [boot_failed layer w error h, if_pos hc]
  exact ⟨rfl, rfl⟩

/-- C7 (amended): when binding fails the program calls `app.listen` once and
never again, never listens and serves no request. `app.js` itself does nothing
about the failure, so the rest is the default of the layer: where the error
event has no listener the error is printed on standard error and the process
exits with status 1, printing no startup line; where the layer hands the error
to the listen callback the startup line is printed and the process ends with
status 0. -/
theorem bind_failure_no_retry_no_service (layer : HttpLayer) (w : World) (error : String)
    (h : w.bind (PORT w.env) = .failed error) :
    (boot layer w).listenCalls = [PORT w.env] ∧
    (boot layer w).listening = false ∧
    (∀ req : Request, (step layer (boot layer w) req).2 = none) ∧
    (∀ reqs : List Request, ∀ o ∈ (run layer (boot layer w) reqs).2, o = none) ∧
    (layer.callbackOnError = false →
      (boot layer w).exitCode = some 1 ∧ (boot layer w).stderr = [error] ∧
      (boot layer w).stdout = []) ∧
    (layer.callbackOnError = true →
      (boot layer w).exitCode = some 0 ∧ (boot layer w).stderr = [] ∧
      (boot layer w).stdout =
        ["Server is running on http://localhost:" ++ (PORT w.env).toStr]) := by
  have hboot := boot_failed layer w error h
  have hlisten : (boot layer w).listening = false := by
    rw [hboot]; split <;> rfl
  have hstep : ∀ req : Request, (step layer (boot layer w) req).2 = none := by
    intro req
    rw [step_eq]
    simp [hlisten]
  refine ⟨boot_listenCalls layer w, hlisten, hstep, ?_, ?_, ?_⟩
  · intro reqs o ho
    rw [run_eq] at ho
    obtain ⟨req, _, hreq⟩ := List.mem_map.mp ho
    rw [← hreq]
    exact hstep req
  · intro hc
    have hc' : ¬ layer.callbackOnError = true := by simp [hc]
    rw [hboot, if_neg hc']
    exact ⟨rfl, rfl, rfl⟩
  · intro hc
    rw [hboot, if_pos hc]
    exact ⟨rfl, rfl, rfl⟩

/-- C7 (witness): port 3000 already in use, no listener for the error event. -/
theorem bind_failure_no_retry_no_service_witness :
    (boot (sampleLayer false)
        (sampleWorld none (.failed "listen EADDRINUSE: address already in use :::3000"))).exitCode
      = some 1 ∧
    (boot (sampleLayer false)
        (sampleWorld none (.failed "listen EADDRINUSE: address already in use :::3000"))).listening
      = false :=
  ⟨((bind_failure_no_retry_no_service (sampleLayer false)
      (sampleWorld none (.failed "listen EADDRINUSE: address already in use :::3000"))
      "listen EADDRINUSE: address already in use :::3000" rfl).2.2.2.2.1 rfl).1,
   (bind_failure_no_retry_no_service (sampleLayer false)
      (sampleWorld none (.failed "listen EADDRINUSE: address already in use :::3000"))
      "listen EADDRINUSE: address already in use :::3000" rfl).2.1⟩

/-- C8 (counterexample): `HEAD /` is a request whose method is not GET, yet it is
routed to the handler registered with `app.get` and the outcome is not the
not-found reply; `OPTIONS /` gets the automatic reply listing GET and HEAD, with
status 200, not the not-found reply either. This holds in every layer that
conforms. -/
theorem head_root_invokes_handler :
    (sampleLayer false).Conforms ∧
    (dispatch (sampleLayer false) (routes (sampleLayer false)) { method := .HEAD, path := "/" }
        (boot (sampleLayer false) (sampleWorld none .bound))).1 =
      .handled { statusCode := 200, sent := some "Hello from instance: web-1-i",
                 body := some "" } ∧
    (dispatch (sampleLayer false) (routes (sampleLayer false))
        { method := .OPTIONS, path := "/" }
        (boot (sampleLayer false) (sampleWorld none .bound))).1 = .allow [.GET, .HEAD] ∧
    (∀ (layer : HttpLayer) (p : Process), layer.Conforms →
      (dispatch layer (routes layer) { method := .HEAD, path := "/" } p).1 =
        .handled { statusCode := 200, sent := some ("Hello from instance: " ++ p.instanceId),
                   body := some "" } ∧
      (dispatch layer (routes layer) { method := .OPTIONS, path := "/" } p).1 =
        .allow [.GET, .HEAD] ∧
      (dispatch layer (routes layer) { method := .OPTIONS, path := "/" } p).1.statusCode
        = 200) ∧
    ¬ (∀ (layer : HttpLayer) (p : Process) (req : Request), layer.Conforms →
        (req.path ≠ "/" ∨ req.method ≠ .GET) →
        (dispatch layer (routes layer) req p).1 = .notFound) := by
  have hall : ∀ (layer : HttpLayer) (p : Process), layer.Conforms →
      (dispatch layer (routes layer) { method := .HEAD, path := "/" } p).1 =
        .handled { statusCode := 200, sent := some ("Hello from instance: " ++ p.instanceId),
                   body := some "" } ∧
      (dispatch layer (routes layer) { method := .OPTIONS, path := "/" } p).1 =
        .allow [.GET, .HEAD] ∧
      (dispatch layer (routes layer) { method := .OPTIONS, path := "/" } p).1.statusCode
        = 200 := by
    intro layer p hl
    have hm : layer.matchesPath "/" "/" = true := hl.root_matches
    rw [dispatch_routes, dispatch_routes]
    simp only [hm, if_true]
    refine ⟨?_, by simp, by simp [Outcome.statusCode]⟩
    rw [send_unconditional layer hl _ (by decide)]
    rfl
  refine ⟨sampleLayer_conforms false, by decide, by decide, hall, ?_⟩
  intro hclaim
  have hnf := hclaim (sampleLayer false) (boot (sampleLayer false) (sampleWorld none .bound))
    { method := .HEAD, path := "/" } (sampleLayer_conforms false) (Or.inr (by decide))
  revert hnf
  decide

/-- C8 (amended): the application registers exactly one route, GET on `/`. The
handler runs exactly for the requests whose path the layer matches against `/`
and whose method is GET or HEAD. For every other request it does not run: the
outcome is the default not-found reply (status 404), except for OPTIONS on a
path matched against `/`, which gets the automatic reply listing GET and HEAD. -/
theorem dispatch_single_route (layer : HttpLayer) (p : Process) (req : Request) :
    (routes layer).map (fun route => (route.method, route.path)) = [(Method.GET, "/")] ∧
    (dispatch layer (routes layer) req p).2 = p ∧
    (layer.matchesPath "/" req.path = true ∧ (req.method = .GET ∨ req.method = .HEAD) →
      (dispatch layer (routes layer) req p).1 =
        .handled (({} : Response).send layer req ("Hello from instance: " ++ p.instanceId))) ∧
    (layer.Conforms → req.path = "/" ∧ (req.method = .GET ∨ req.method = .HEAD) →
      (dispatch layer (routes layer) req p).1 =
        .handled (({} : Response).send layer req ("Hello from instance: " ++ p.instanceId))) ∧
    (layer.matchesPath "/" req.path = true ∧ req.method = .OPTIONS →
      (dispatch layer (routes layer) req p).1 = .allow [.GET, .HEAD]) ∧
    (layer.matchesPath "/" req.path = false ∨
        (req.method ≠ .GET ∧ req.method ≠ .HEAD ∧ req.method ≠ .OPTIONS) →
      (dispatch layer (routes layer) req p).1 = .notFound ∧
      (dispatch layer (routes layer) req p).1.statusCode = 404) ∧
    (¬ (layer.matchesPath "/" req.path = true ∧ (req.method = .GET ∨ req.method = .HEAD)) →
      ∀ res : Response, (dispatch layer (routes layer) req p).1 ≠ .handled res) := by
  rw [dispatch_routes]
  refine ⟨rfl, rfl, ?_, ?_, ?_, ?_, ?_⟩
  · rintro ⟨hp, hm⟩
    simp only [hp, hm, if_true]
    rfl
  · rintro hl ⟨hp, hm⟩
    have hroot : layer.matchesPath "/" req.path = true := by rw [hp]; exact hl.root_matches
    simp only [hroot, hm, if_true]
    rfl
  · rintro ⟨hp, hm⟩
    simp [hp, hm]
  · rintro (hp | ⟨h1, h2, h3⟩)
    · simp [hp, Outcome.statusCode]
    · by_cases hp : layer.matchesPath "/" req.path = true
      · simp [hp, h1, h2, h3, Outcome.statusCode]
      · simp [hp, Outcome.statusCode]
  · intro hno res
    by_cases hp : layer.matchesPath "/" req.path = true
    · have hm : ¬ (req.method = .GET ∨ req.method = .HEAD) := fun h => hno ⟨hp, h⟩
      simp only [hp, hm, if_true, if_false]
      split <;> simp
    · simp [hp]

/-- C8 (witness): where paths match by equality, `GET /unknown` and `POST /` get
the not-found reply. -/
theorem dispatch_single_route_witness :
    (dispatch (sampleLayer false) (routes (sampleLayer false))
        { method := .GET, path := "/unknown" }
        (boot (sampleLayer false) (sampleWorld none .bound))).1 = .notFound ∧
    (dispatch (sampleLayer false) (routes (sampleLayer false))
        { method := .POST, path := "/" }
        (boot (sampleLayer false) (sampleWorld none .bound))).1 = .notFound :=
  ⟨((dispatch_single_route (sampleLayer false)
      (boot (sampleLayer false) (sampleWorld none .bound))
      { method := .GET, path := "/unknown" }).2.2.2.2.2.1 (Or.inl (by decide))).1,
   ((dispatch_single_route (sampleLayer false)
      (boot (sampleLayer false) (sampleWorld none .bound))
      { method := .POST, path := "/" }).2.2.2.2.2.1 (Or.inr (by decide))).1⟩

/-- C9: on a successful bind the program prints exactly one line,
`"Server is running on http://localhost:"` followed by the text of `PORT`
(`3000` by default); serving requests prints nothing. -/
theorem startup_log_line (layer : HttpLayer) (w : World) (h : w.bind (PORT w.env) = .bound) :
    (boot layer w).stdout = ["Server is running on http://localhost:" ++ (PORT w.env).toStr] ∧
    (boot layer w).stdout.length = 1 ∧
    (w.env "PORT" = none →
      (boot layer w).stdout = ["Server is running on http://localhost:3000"]) ∧
    (∀ p : String, w.env "PORT" = some p → p ≠ "" →
      (boot layer w).stdout = ["Server is running on http://localhost:" ++ p]) ∧
    (boot layer w).listening = true ∧
    (∀ req : Request, (step layer (boot layer w) req).1.stdout = (boot layer w).stdout) ∧
    (∀ reqs : List Request, (run layer (boot layer w) reqs).1.stdout = (boot layer w).stdout) := by
  have hout : (boot layer w).stdout =
      ["Server is running on http://localhost:" ++ (PORT w.env).toStr] := by
    rw [boot_bound layer w h]
  have hlisten : (boot layer w).listening = true := by
    rw [boot_bound layer w h]
  refine ⟨hout, by rw [hout]; rfl, fun hnone => ?_, fun p hp hne => ?_, hlisten, fun req => ?_,
    fun reqs => by rw [run_eq]⟩
  · have hp : PORT w.env = .number 3000 := by
      simp [PORT, ProcessEnv.get, hnone, JSValue.or, JSValue.toBoolean]
    rw [hout, hp]
    decide
  · have hp' : PORT w.env = .string p := by
      simp [PORT, ProcessEnv.get, hp, JSValue.or, JSValue.toBoolean, hne]
    rw [hout, hp']
    rfl
  · rw [step_eq]

/-- C9 (witness): with no `PORT` and a successful bind the output is the single
line for port 3000. -/
theorem startup_log_line_witness :
    (boot (sampleLayer false) (sampleWorld none .bound)).stdout =
      ["Server is running on http://localhost:3000"] :=
  (startup_log_line (sampleLayer false) (sampleWorld none .bound) rfl).2.2.1 rfl

/-- C10: for every string `s` the token `s.substr(2, 6)` has
`min(6, max(0, length(s) - 2))` characters; it is never longer than 6, and it
has exactly 6 characters if and only if `s` has at least 8. -/
theorem substr_two_six_length (s : String) :
    ((substr s 2 6).length : Int) = min 6 (max 0 ((s.length : Int) - 2)) ∧
    (substr s 2 6).length ≤ 6 ∧
    ((substr s 2 6).length = 6 ↔ 8 ≤ s.length) := by
  have h := substr_length s 2 6
  refine ⟨?_, ?_, ?_⟩ <;> omega

end LoadBalancing

